import Mathlib

/-!
Verification of the Redux Toolkit counter example.

The domain logic lives in `src/Redux/CounterSlice.js`: a slice named
"Counter" over the state `{ value: 0 }` with case reducers `increment`,
`decrement` and `incrementbyfive`.  JavaScript numbers that arise here are
either integers or NaN (adding `undefined` or NaN to a number yields NaN),
so we model them by the type `JsNum` below.
-/

/-- A JavaScript number as it can arise in this program: an integer, or NaN
(produced by adding `undefined` or NaN to a number). -/
inductive JsNum where
  | int : Int → JsNum
  | nan : JsNum
deriving DecidableEq

/-- JavaScript `+` on the numbers arising here: integer addition, with NaN
absorbing. -/
def jsAdd : JsNum → JsNum → JsNum
  | JsNum.int a, JsNum.int b => JsNum.int (a + b)
  | _, _ => JsNum.nan

/-- JavaScript `-` on the numbers arising here: integer subtraction, with NaN
absorbing. -/
def jsSub : JsNum → JsNum → JsNum
  | JsNum.int a, JsNum.int b => JsNum.int (a - b)
  | _, _ => JsNum.nan

/-- JavaScript `x + p` where `p` may be `undefined` (a missing payload):
`number + undefined` is NaN. -/
def jsAddU : JsNum → Option JsNum → JsNum
  | _, none => JsNum.nan
  | x, some y => jsAdd x y

/-- A dispatched action: a `type`/kind string (such as "Counter/increment")
and an optional payload. -/
structure ReduxAction where
  kind : String
  payload : Option JsNum
deriving DecidableEq

/-- The namespace-local state of the counter slice: `{ value: ... }`. -/
structure CounterState where
  value : JsNum
deriving DecidableEq

namespace CounterSlice

/-- `initialState: { value: 0 }` from CounterSlice.js. -/
def initialState : CounterState := { value := JsNum.int 0 }

/-- The slice name from CounterSlice.js: `name: "Counter"`. -/
def sliceName : String := "Counter"

/-- Case reducer `increment: (state) => { state.value += 1; }` (the Immer
mutation returns the updated value). -/
def increment (s : CounterState) : CounterState :=
  { s with value := jsAdd s.value (JsNum.int 1) }

/-- Case reducer `decrement: (state) => { state.value -= 1; }`. -/
def decrement (s : CounterState) : CounterState :=
  { s with value := jsSub s.value (JsNum.int 1) }

/-- Case reducer `incrementbyfive: (state, actions) => { state.value +=
actions.payload; }`.  A missing payload is JavaScript `undefined`. -/
def incrementbyfive (s : CounterState) (a : ReduxAction) : CounterState :=
  { s with value := jsAddU s.value a.payload }

/-- The slice reducer generated by `createSlice`: it matches the action type
"Counter/<case>" and applies the corresponding case reducer, returning the
state unchanged for any other action type. -/
def reducer (s : CounterState) (a : ReduxAction) : CounterState :=
  if a.kind = "Counter/increment" then increment s
  else if a.kind = "Counter/decrement" then decrement s
  else if a.kind = "Counter/incrementbyfive" then incrementbyfive s a
  else s

end CounterSlice




/-- A reference cell: a heap address paired with the value stored there.
Slices are held by reference so that "referentially unchanged" is
expressible: an untouched slice keeps both its address and its value. -/
structure Ref (α : Type) where
  addr : Nat
  val : α
deriving DecidableEq

/-- Splits a character list at the first '/', returning the parts before and
after it, or `none` when there is no '/'. -/
def splitKindChars : List Char → Option (List Char × List Char)
  | [] => none
  | c :: cs =>
    if c = '/' then some ([], cs)
    else (splitKindChars cs).map (fun p => (c :: p.1, p.2))

/-- Modelled from the spec: `dispatch` "looks up the namespace from the
prefix of `kind` before the separator" and "the operation from the suffix
after the separator". -/
def splitKind (kind : String) : Option (String × String) :=
  (splitKindChars kind.data).map (fun p => (String.mk p.1, String.mk p.2))

/-- Modelled from the spec: the StateContainer owns the current State (a
mapping from namespace key to that namespace's slice, held by reference),
the registered transition functions (namespace key and kind-suffix to
transition function), and the registered subscribers (identified by
registration number, kept in registration order).  `nextSub` numbers the
next subscription; `nextAddr` is the next fresh heap address. -/
structure StateContainer (α : Type) where
  slices : List (String × Ref α)
  transitions : String → String → Option (α → ReduxAction → α)
  subs : List Nat
  nextSub : Nat
  nextAddr : Nat

/-- Looks a namespace key up in the State. -/
def lookupSlice {α : Type} (ns : String) : List (String × Ref α) → Option (Ref α)
  | [] => none
  | p :: rest => if p.1 = ns then some p.2 else lookupSlice ns rest

/-- Replaces the slice stored under a namespace key, leaving every other
entry untouched. -/
def replaceSlice {α : Type} (ns : String) (r : Ref α) :
    List (String × Ref α) → List (String × Ref α)
  | [] => []
  | p :: rest =>
    if p.1 = ns then (p.1, r) :: replaceSlice ns r rest
    else p :: replaceSlice ns r rest

/-- Whether an action's kind resolves to a registered namespace/operation
pair of the container. -/
def resolves {α : Type} (c : StateContainer α) (a : ReduxAction) : Bool :=
  match splitKind a.kind with
  | none => false
  | some nsop => (c.transitions nsop.1 nsop.2).isSome
      && (lookupSlice nsop.1 c.slices).isSome

/-- Modelled from the spec: `dispatch(action)` parses the kind as
"namespace/operation"; if both resolve to a registered transition function
it applies that function to the namespace-local state and the action,
replaces that namespace's slice with a freshly allocated reference to the
returned value (the transition returns a new value, so the result always
differs by reference from the prior slice) and invokes every currently
registered subscriber, synchronously, in registration order; otherwise the
dispatch is a silent no-op.  The returned list is the notification trace:
the identifiers of the subscribers invoked, in invocation order. -/
def dispatch {α : Type} (c : StateContainer α) (a : ReduxAction) :
    StateContainer α × List Nat :=
  match splitKind a.kind with
  | none => (c, [])
  | some nsop =>
    match c.transitions nsop.1 nsop.2, lookupSlice nsop.1 c.slices with
    | some f, some r =>
      ({ c with
          slices := replaceSlice nsop.1 ⟨c.nextAddr, f r.val a⟩ c.slices,
          nextAddr := c.nextAddr + 1 },
        c.subs)
    | _, _ => (c, [])

/-- Modelled from the spec: `getState()` returns the current State snapshot;
per namespace this is the stored slice value. -/
def getSliceVal {α : Type} (c : StateContainer α) (ns : String) : Option α :=
  (lookupSlice ns c.slices).map Ref.val

/-- Modelled from the spec: `subscribe(callback)` registers the callback at
the end of the subscriber list and returns its registration number (the
handle used to unregister). -/
def subscribe {α : Type} (c : StateContainer α) : StateContainer α × Nat :=
  ({ c with subs := c.subs ++ [c.nextSub], nextSub := c.nextSub + 1 }, c.nextSub)

/-- Modelled from the spec: calling the unregistration handle removes the
subscriber; calling it again is a no-op. -/
def unsubscribe {α : Type} (c : StateContainer α) (i : Nat) : StateContainer α :=
  { c with subs := c.subs.filter (fun j => j != i) }

/-- The transition table the counter slice registers: kind-suffix to case
reducer, as generated by `createSlice` from CounterSlice.js. -/
def counterTransitions (op : String) : Option (CounterState → ReduxAction → CounterState) :=
  if op = "increment" then some (fun s _ => CounterSlice.increment s)
  else if op = "decrement" then some (fun s _ => CounterSlice.decrement s)
  else if op = "incrementbyfive" then some CounterSlice.incrementbyfive
  else none

/-- The store from `src/Redux/Store.js`: `configureStore` with the single
reducer entry `Counter: CounterSlicereducer`, so the initial State is
`{ Counter: { value: 0 } }`; no subscribers are registered at construction. -/
def Store : StateContainer CounterState :=
  { slices := [("Counter", ⟨0, CounterSlice.initialState⟩)],
    transitions := fun ns op => if ns = "Counter" then counterTransitions op else none,
    subs := [],
    nextSub := 0,
    nextAddr := 1 }

/-- A container with two namespaces and two registered subscribers, used to
exercise the frame and notification properties on concrete inputs. -/
def DemoContainer : StateContainer CounterState :=
  { slices := [("Counter", ⟨0, { value := JsNum.int 0 }⟩),
               ("Other", ⟨1, { value := JsNum.int 7 }⟩)],
    transitions := fun ns op => if ns = "Counter" then counterTransitions op else none,
    subs := [0, 1],
    nextSub := 2,
    nextAddr := 2 }








/-- Dispatching the increment action n times, in sequence, through the slice
reducer. -/
def incrementIter : Nat → CounterState → CounterState
  | 0, s => s
  | n + 1, s =>
    incrementIter n (CounterSlice.reducer s { kind := "Counter/increment", payload := none })

/-!  Theorems.  -/

/-- Looking up a key other than the replaced one is unaffected by
`replaceSlice`: the stored reference (address and value) is unchanged. -/
theorem lookupSlice_replaceSlice_ne {α : Type} (k ns : String) (r : Ref α)
    (l : List (String × Ref α)) (hk : k ≠ ns) :
    lookupSlice k (replaceSlice ns r l) = lookupSlice k l := by
  induction l with
  | nil => rfl
  | cons p rest ih =>
    by_cases hp : p.1 = ns
    · have hpk : p.1 ≠ k := fun h => hk (h ▸ hp)
      simp [replaceSlice, lookupSlice, hp, hpk, ih, Ne.symm hk]
    · by_cases hpk : p.1 = k
      · simp [replaceSlice, lookupSlice, hp, hpk, hk]
      · simp [replaceSlice, lookupSlice, hp, hpk, ih]

/-- The notification trace of a dispatch is either empty (unresolved) or
exactly the container's registered subscriber list. -/
theorem dispatch_trace_cases {α : Type} (c : StateContainer α) (a : ReduxAction) :
    (dispatch c a).2 = [] ∨ (dispatch c a).2 = c.subs := by
  unfold dispatch
  rcases hs : splitKind a.kind with _ | nsop
  · simp
  · rcases ht : c.transitions nsop.1 nsop.2 with _ | f
    · rcases hl : lookupSlice nsop.1 c.slices with _ | r <;> simp [ht, hl]
    · rcases hl : lookupSlice nsop.1 c.slices with _ | r <;> simp [ht, hl]

/-- C1: For every integer v, the increment operation maps { value: v } to
{ value: v + 1 } and the decrement operation maps { value: v } to
{ value: v - 1 }, both ignoring any payload; and dispatching the increment
action on the store's initial State { Counter: { value: 0 } } yields
{ Counter: { value: 1 } }. -/
theorem counter_increment_decrement_spec :
    (∀ (v : Int) (p : Option JsNum),
      CounterSlice.reducer { value := JsNum.int v }
          { kind := "Counter/increment", payload := p }
        = { value := JsNum.int (v + 1) })
  ∧ (∀ (v : Int) (p : Option JsNum),
      CounterSlice.reducer { value := JsNum.int v }
          { kind := "Counter/decrement", payload := p }
        = { value := JsNum.int (v - 1) })
  ∧ getSliceVal (dispatch Store { kind := "Counter/increment", payload := none }).1 "Counter"
      = some { value := JsNum.int 1 } :=
  ⟨fun _ _ => rfl, fun _ _ => rfl, by decide⟩

/-- C2: For all integers v and n (n may be negative), the
increment-by-amount operation with payload n maps { value: v } to
{ value: v + n }. -/
theorem counter_incrementByAmount_adds :
    ∀ (v n : Int),
      CounterSlice.reducer { value := JsNum.int v }
          { kind := "Counter/incrementbyfive", payload := some (JsNum.int n) }
        = { value := JsNum.int (v + n) } :=
  fun _ _ => rfl

/-- C4 counterexample: with a missing payload, the increment-by-amount
operation on { value: 0 } does not return { value: 0 }; `state.value +=
actions.payload` with an undefined payload yields NaN, not value + 0. -/
theorem incrementByAmount_missing_payload_not_zero :
    ¬ (CounterSlice.reducer { value := JsNum.int 0 }
          { kind := "Counter/incrementbyfive", payload := none }
        = { value := JsNum.int 0 }) := by decide

/-- C4 amended: For every integer v, the increment-by-amount operation with
a missing payload (JavaScript `undefined`) or a NaN payload maps
{ value: v } to { value: NaN }; the payload is not defaulted to 0. -/
theorem incrementByAmount_missing_payload_nan :
    ∀ v : Int,
      CounterSlice.reducer { value := JsNum.int v }
          { kind := "Counter/incrementbyfive", payload := none }
        = { value := JsNum.nan }
    ∧ CounterSlice.reducer { value := JsNum.int v }
          { kind := "Counter/incrementbyfive", payload := some JsNum.nan }
        = { value := JsNum.nan } :=
  fun _ => ⟨rfl, rfl⟩

/-- C5: For every integer v, dispatching increment and then decrement on
{ value: v } returns the counter state to { value: v }. -/
theorem increment_decrement_roundtrip :
    ∀ v : Int,
      CounterSlice.reducer
          (CounterSlice.reducer { value := JsNum.int v }
            { kind := "Counter/increment", payload := none })
          { kind := "Counter/decrement", payload := none }
        = { value := JsNum.int v } := by
  intro v
  show CounterState.mk (JsNum.int (v + 1 - 1)) = CounterState.mk (JsNum.int v)
  have h : v + 1 - 1 = v := by omega
  rw [h]

/-- C9: The slice reducer is deterministic: two runs on equal namespace-local
states and equal actions produce equal results; the result depends on
nothing besides the state and the action. -/
theorem reducer_deterministic (s1 s2 : CounterState) (a1 a2 : ReduxAction)
    (hs : s1 = s2) (ha : a1 = a2) :
    CounterSlice.reducer s1 a1 = CounterSlice.reducer s2 a2 := by
  rw [hs, ha]

/-- Witness for C9 at state { value: 2 } and the increment action. -/
theorem reducer_deterministic_witness :
    ({ value := JsNum.int 2 } : CounterState) = { value := JsNum.int 2 }
  ∧ ({ kind := "Counter/increment", payload := none } : ReduxAction)
      = { kind := "Counter/increment", payload := none }
  ∧ CounterSlice.reducer { value := JsNum.int 2 }
        { kind := "Counter/increment", payload := none }
      = CounterSlice.reducer { value := JsNum.int 2 }
        { kind := "Counter/increment", payload := none } :=
  ⟨rfl, rfl, reducer_deterministic _ _ _ _ rfl rfl⟩

/-- C8: On a state { value: n } with n an integer, every action that either
carries an integer payload or is the increment or decrement action produces
a state whose single `value` field again holds an integer. -/
theorem reducer_preserves_shape (n : Int) (a : ReduxAction)
    (h : (∃ p : Int, a.payload = some (JsNum.int p))
      ∨ a.kind = "Counter/increment" ∨ a.kind = "Counter/decrement") :
    ∃ m : Int, CounterSlice.reducer { value := JsNum.int n } a
      = { value := JsNum.int m } := by
  unfold CounterSlice.reducer
  by_cases h1 : a.kind = "Counter/increment"
  · exact ⟨n + 1, by simp [h1, CounterSlice.increment, jsAdd]⟩
  · by_cases h2 : a.kind = "Counter/decrement"
    · exact ⟨n - 1, by simp [h1, h2, CounterSlice.decrement, jsSub]⟩
    · by_cases h3 : a.kind = "Counter/incrementbyfive"
      · rcases h with ⟨p, hp⟩ | hk | hk
        · exact ⟨n + p, by simp [h1, h2, h3, CounterSlice.incrementbyfive, hp, jsAddU, jsAdd]⟩
        · exact absurd hk h1
        · exact absurd hk h2
      · exact ⟨n, by simp [h1, h2, h3]⟩

/-- Witness for C8 at state { value: 0 } and the increment-by-amount action
with payload 5. -/
theorem reducer_preserves_shape_witness :
    ((∃ p : Int, (({ kind := "Counter/incrementbyfive", payload := some (JsNum.int 5) } : ReduxAction)).payload
        = some (JsNum.int p))
      ∨ ({ kind := "Counter/incrementbyfive", payload := some (JsNum.int 5) } : ReduxAction).kind = "Counter/increment"
      ∨ ({ kind := "Counter/incrementbyfive", payload := some (JsNum.int 5) } : ReduxAction).kind = "Counter/decrement")
  ∧ ∃ m : Int, CounterSlice.reducer { value := JsNum.int 0 }
        { kind := "Counter/incrementbyfive", payload := some (JsNum.int 5) }
      = { value := JsNum.int m } :=
  ⟨Or.inl ⟨5, rfl⟩,
    reducer_preserves_shape 0 { kind := "Counter/incrementbyfive", payload := some (JsNum.int 5) }
      (Or.inl ⟨5, rfl⟩)⟩

/-- C10: For every integer v and natural number n, dispatching increment n
times from { value: v } produces the same state as one increment-by-amount
dispatch with payload n. -/
theorem incrementIter_eq_incrementByAmount :
    ∀ (v : Int) (n : Nat),
      incrementIter n { value := JsNum.int v }
        = CounterSlice.reducer { value := JsNum.int v }
            { kind := "Counter/incrementbyfive", payload := some (JsNum.int (n : Int)) } := by
  have key : ∀ (n : Nat) (v : Int),
      incrementIter n { value := JsNum.int v } = { value := JsNum.int (v + n) } := by
    intro n
    induction n with
    | zero => intro v; show ({ value := JsNum.int v } : CounterState) = _; norm_num
    | succ k ih =>
      intro v
      show incrementIter k (CounterSlice.reducer { value := JsNum.int v }
        { kind := "Counter/increment", payload := none }) = _
      have h1 : CounterSlice.reducer { value := JsNum.int v }
          { kind := "Counter/increment", payload := none }
          = { value := JsNum.int (v + 1) } := rfl
      rw [h1, ih]
      have h2 : v + 1 + (k : Int) = v + ((k : Nat) + 1 : Nat) := by push_cast; ring
      rw [h2]
  intro v n
  rw [key]
  show ({ value := JsNum.int (v + n) } : CounterState) = { value := JsNum.int (v + (n : Int)) }
  rfl

/-- C3: A dispatch whose kind does not resolve to a registered
namespace/operation pair is a silent no-op: the container is unchanged and
the notification trace is empty (zero subscribers invoked, and `dispatch`
is total, so no error is raised); dispatching the same unresolved action a
second time leaves the container identical again. -/
theorem dispatch_unresolved_noop {α : Type} (c : StateContainer α) (a : ReduxAction)
    (h : resolves c a = false) :
    dispatch c a = (c, []) ∧ dispatch (dispatch c a).1 a = (c, []) := by
  have h1 : dispatch c a = (c, []) := by
    unfold resolves at h
    unfold dispatch
    rcases hs : splitKind a.kind with _ | nsop
    · simp only [hs]
    · simp only [hs] at h ⊢
      rcases ht : c.transitions nsop.1 nsop.2 with _ | f
      · rcases hl : lookupSlice nsop.1 c.slices with _ | r <;> simp [ht, hl]
      · rcases hl : lookupSlice nsop.1 c.slices with _ | r
        · simp [ht, hl]
        · simp [ht, hl] at h
  exact ⟨h1, by rw [h1]; exact h1⟩

/-- Witness for C3: dispatching { kind: "Counter/doesNotExist" } on the
store twice is a no-op both times and notifies no subscriber. -/
theorem dispatch_unresolved_noop_witness :
    resolves Store { kind := "Counter/doesNotExist", payload := none } = false
  ∧ (dispatch Store { kind := "Counter/doesNotExist", payload := none } = (Store, [])
    ∧ dispatch (dispatch Store { kind := "Counter/doesNotExist", payload := none }).1
        { kind := "Counter/doesNotExist", payload := none } = (Store, [])) :=
  ⟨by decide,
    dispatch_unresolved_noop Store { kind := "Counter/doesNotExist", payload := none } (by decide)⟩

/-- C6: A resolved dispatch replaces only the slice of the namespace named
in the action's kind; the slice of every other namespace is left
referentially unchanged (the stored reference, address and value, is the
same one as before the dispatch). -/
theorem dispatch_frame {α : Type} (c : StateContainer α) (a : ReduxAction)
    (ns op k : String) (h : splitKind a.kind = some (ns, op))
    (_hres : resolves c a = true) (hk : k ≠ ns) :
    lookupSlice k (dispatch c a).1.slices = lookupSlice k c.slices := by
  unfold dispatch
  simp only [h]
  rcases ht : c.transitions ns op with _ | f
  · rcases hl : lookupSlice ns c.slices with _ | r <;> simp [ht, hl]
  · rcases hl : lookupSlice ns c.slices with _ | r
    · simp [ht, hl]
    · simp only [ht, hl]
      exact lookupSlice_replaceSlice_ne k ns _ c.slices hk

/-- Witness for C6: on a container with namespaces "Counter" and "Other",
dispatching the increment action leaves the "Other" slice unchanged. -/
theorem dispatch_frame_witness :
    splitKind "Counter/increment" = some ("Counter", "increment")
  ∧ resolves DemoContainer { kind := "Counter/increment", payload := none } = true
  ∧ "Other" ≠ "Counter"
  ∧ lookupSlice "Other"
        (dispatch DemoContainer { kind := "Counter/increment", payload := none }).1.slices
      = lookupSlice "Other" DemoContainer.slices :=
  ⟨by decide, by decide, by decide,
    dispatch_frame DemoContainer { kind := "Counter/increment", payload := none }
      "Counter" "increment" "Other" (by decide) (by decide) (by decide)⟩

/-- C7: A resolved dispatch invokes exactly the currently registered
subscribers, in registration order (the subscriber list, to whose end
`subscribe` appends each new registration), synchronously within `dispatch`
(the trace is produced before `dispatch` returns); and a subscriber
unregistered before the dispatch is never invoked by it. -/
theorem dispatch_subscriber_order {α : Type} (c : StateContainer α) (a : ReduxAction)
    (i : Nat) (hres : resolves c a = true) :
    (dispatch c a).2 = c.subs
  ∧ (subscribe c).1.subs = c.subs ++ [(subscribe c).2]
  ∧ i ∉ (dispatch (unsubscribe c i) a).2 := by
  refine ⟨?_, rfl, ?_⟩
  · unfold resolves at hres
    unfold dispatch
    rcases hs : splitKind a.kind with _ | nsop
    · rw [hs] at hres; simp at hres
    · simp only [hs] at hres ⊢
      rcases ht : c.transitions nsop.1 nsop.2 with _ | f
      · simp [ht] at hres
      · rcases hl : lookupSlice nsop.1 c.slices with _ | r
        · simp [ht, hl] at hres
        · simp [ht, hl]
  · rcases dispatch_trace_cases (unsubscribe c i) a with h | h
    · simp [h]
    · rw [h]
      unfold unsubscribe
      simp [List.mem_filter]

/-- Witness for C7: dispatching the increment action on the demo container
notifies subscribers 0 and 1 in order; after unregistering subscriber 0, a
dispatch no longer invokes it. -/
theorem dispatch_subscriber_order_witness :
    resolves DemoContainer { kind := "Counter/increment", payload := none } = true
  ∧ ((dispatch DemoContainer { kind := "Counter/increment", payload := none }).2
        = DemoContainer.subs
    ∧ (subscribe DemoContainer).1.subs = DemoContainer.subs ++ [(subscribe DemoContainer).2]
    ∧ 0 ∉ (dispatch (unsubscribe DemoContainer 0)
        { kind := "Counter/increment", payload := none }).2) :=
  ⟨by decide,
    dispatch_subscriber_order DemoContainer { kind := "Counter/increment", payload := none }
      0 (by decide)⟩
